import Mathlib

/-!
Verification of the academic-paper multi-agent generator
(paper_generator.py, collaboration_engine.py, conversation_manager.py,
ai_service.py, prompt_templates.py).

Shallow embedding conventions:
* Python dicts are insertion-ordered association lists (`List (String × _)`);
  `Py.insert` overwrites in place (keeping the key's position) or appends,
  and `Py.update` folds `Py.insert` over the update's entries, exactly the
  semantics of `dict.__setitem__` / `dict.update`.
* The LLM backends are external collaborators behind
  `AIServiceManager.chat`; each call is modelled as reading the next entry
  of an oracle trace (`ChatEnv.resp : Nat → Except String String`), where
  `Except.error` models a raised exception (transport failure, no backend).
* `json.loads` is an external library call, modelled by an environment
  function `parseJson : String → Option (List (String × PyVal))` (`none`
  models a parse exception).
* Prompt-template text is configuration data behind the prompt-provider
  interface; the template bodies are supplied by the environment while all
  control flow around them is embedded from the source.
* Timestamps (`datetime.now()`) are modelled as explicit `now : String`
  arguments where they reach an observable output, and elided from the
  `Message`/`Session` records, where they influence no control flow.
* Raised exceptions of repository code are `Except.error`; fallible
  operations return `Except String _`.
-/

deriving instance DecidableEq for Except

/-- Python values as they occur in `collected_info` (JSON scalars).
Truthiness follows Python. -/
inductive PyVal where
  | vStr (s : String)
  | vInt (n : Int)
  | vBool (b : Bool)
  | vNone
deriving Repr, DecidableEq

/-- Python truthiness for the values above. -/
def PyVal.truthy : PyVal → Bool
  | .vStr s => !s.isEmpty
  | .vInt n => decide (n ≠ 0)
  | .vBool b => b
  | .vNone => false

/-- Python `str()` for the values above. -/
def PyVal.toStr : PyVal → String
  | .vStr s => s
  | .vInt n => toString n
  | .vBool b => if b then "True" else "False"
  | .vNone => "None"

namespace Py

/-- Dict lookup (`d[k]` / `d.get(k)`), first matching key. -/
def get? {α : Type} : List (String × α) → String → Option α
  | [], _ => none
  | (k, v) :: rest, key => if k = key then some v else get? rest key

/-- Dict write `d[k] = v`: overwrite in place, else append (insertion order). -/
def insert {α : Type} : List (String × α) → String → α → List (String × α)
  | [], key, val => [(key, val)]
  | (k, v) :: rest, key, val =>
    if k = key then (k, val) :: rest else (k, v) :: insert rest key val

/-- `d.update(e)`: fold the entries of `e` into `d`, later values win. -/
def update {α : Type} (d e : List (String × α)) : List (String × α) :=
  List.foldl (fun acc kv => insert acc kv.1 kv.2) d e

end Py

/-! ## Completeness checker (`AcademicPaperGenerator._check_information_completeness`) -/

/-- The fixed six required fields, in check order. -/
def required_fields : List String :=
  ["研究主题", "研究背景", "研究目标", "研究方法", "数据来源", "研究发现"]

/-- `field not in collected_info or not collected_info[field]`. -/
def fieldMissing (collected_info : List (String × PyVal)) (f : String) : Bool :=
  match Py.get? collected_info f with
  | none => true
  | some v => !v.truthy

structure Completeness where
  is_complete : Bool
  missing_info : List String
  completeness_rate : ℚ
deriving Repr, DecidableEq

/-- Embeds `_check_information_completeness`. -/
def check_information_completeness (collected_info : List (String × PyVal)) : Completeness :=
  let missing_info := required_fields.filter (fun f => fieldMissing collected_info f)
  { is_complete := missing_info.length == 0
    missing_info := missing_info
    completeness_rate :=
      ((required_fields.length : ℚ) - (missing_info.length : ℚ)) / (required_fields.length : ℚ) }

/-! ## Role assignment (`MultiModelCollaborationEngine._assign_services_to_roles`) -/

namespace ModelRole

def INFORMATION_COLLECTOR : String := "information_collector"

def CONTENT_GENERATOR : String := "content_generator"

def QUALITY_REVIEWER : String := "quality_reviewer"

def STRUCTURE_OPTIMIZER : String := "structure_optimizer"

end ModelRole

/-- The four roles in the fixed order used by `_assign_services_to_roles`. -/
def collaboration_roles : List String :=
  [ModelRole.INFORMATION_COLLECTOR, ModelRole.CONTENT_GENERATOR,
   ModelRole.QUALITY_REVIEWER, ModelRole.STRUCTURE_OPTIMIZER]

/-- Embeds `_assign_services_to_roles` over the registered service names. -/
def assign_services_to_roles (services : List String) : List (String × String) :=
  match services with
  | [] => []
  | [service_name] =>
    [(ModelRole.INFORMATION_COLLECTOR, service_name),
     (ModelRole.CONTENT_GENERATOR, service_name),
     (ModelRole.QUALITY_REVIEWER, service_name),
     (ModelRole.STRUCTURE_OPTIMIZER, service_name)]
  | _ :: _ :: _ =>
    collaboration_roles.enum.map
      (fun p => (p.2, services.getD (p.1 % services.length) ""))

/-! ## Backend environment -/

/-- A chat message; the `timestamp`/`metadata` of `Message` never influence
control flow and are elided. -/
structure Msg where
  role : String
  content : String
deriving Repr, DecidableEq

/-- The external world of one run: the backend oracle (`resp k` is the outcome
of the `k`-th `AIServiceManager.chat` call; `Except.error` models a raised
exception), the role configuration loaded from `config.yaml`, the registered
backend names, the external `json.loads`, and the prompt-template provider. -/
structure ChatEnv where
  resp : Nat → Except String String
  roleDesc : String → Option String
  roleTemp : String → Option ℚ
  services : List String
  parseJson : String → Option (List (String × PyVal))
  promptCollabCollector : String → String → String
  promptContentGeneration : String → List (String × PyVal) → String
  promptQualityReview : String → String
  promptStructureOptimization : String → String

/-- `AIServiceManager.chat` (together with the backend HTTP call): consumes the
next oracle entry. The arguments are those of the source signature; the oracle
already accounts for them (including the no-available-service exception). -/
def svc_chat (env : ChatEnv) (k : Nat) (messages : List Msg)
    (service_name : Option String) (temperature : ℚ) (max_tokens : Nat) :
    Except String String × Nat :=
  (env.resp k, k + 1)

/-- The `try/except` pattern `return chat(...)` / `return f"...: {e}"`. -/
def chat_or (failure_text : String) (outcome : Except String String) : String :=
  match outcome with
  | .ok r => r
  | .error e => failure_text ++ e

/-- `self.role_service_mapping`, computed once from the registered services. -/
def role_service_mapping (env : ChatEnv) : List (String × String) :=
  assign_services_to_roles env.services

/-! ## Collaboration engine (`collaboration_engine.py`) -/

/-- `MultiModelCollaborationEngine._format_collected_info`. -/
def format_collected_info (collected_info : List (String × PyVal)) : String :=
  if collected_info.isEmpty then "暂无收集的信息"
  else
    let formatted := (collected_info.filter (fun kv => kv.2.truthy)).map
      (fun kv => "【" ++ kv.1 ++ "】\n" ++ kv.2.toStr)
    if formatted.isEmpty then "暂无收集的信息"
    else String.intercalate "\n\n" formatted

/-- `MultiModelCollaborationEngine.collect_information`. -/
def collect_information (env : ChatEnv) (k : Nat) (current_stage : String)
    (collected_info : List (String × PyVal)) (conversation_history : List Msg) :
    String × Nat :=
  let temperature := (env.roleTemp ModelRole.INFORMATION_COLLECTOR).getD (7/10)
  let collected_info_text := format_collected_info collected_info
  let prompt := env.promptCollabCollector collected_info_text current_stage
  let system_role := (env.roleDesc ModelRole.INFORMATION_COLLECTOR).getD "信息收集专家"
  let history :=
    if conversation_history.isEmpty then []
    else conversation_history.drop (conversation_history.length - 6)
  let messages := [Msg.mk "system" system_role] ++ history ++ [Msg.mk "user" prompt]
  let service_name := Py.get? (role_service_mapping env) ModelRole.INFORMATION_COLLECTOR
  let res := svc_chat env k messages service_name temperature 2000
  (chat_or "信息收集失败: " res.1, res.2)

/-- `MultiModelCollaborationEngine.generate_content`. -/
def generate_content (env : ChatEnv) (k : Nat) (sec : String)
    (collected_info : List (String × PyVal)) (requirements : String) : String × Nat :=
  let temperature := (env.roleTemp ModelRole.CONTENT_GENERATOR).getD (4/5)
  let prompt0 := env.promptContentGeneration sec collected_info
  let prompt :=
    if requirements.isEmpty then prompt0
    else prompt0 ++ "\n\n额外要求：\n" ++ requirements
  let system_role := (env.roleDesc ModelRole.CONTENT_GENERATOR).getD "内容生成专家"
  let messages := [Msg.mk "system" system_role, Msg.mk "user" prompt]
  let service_name := Py.get? (role_service_mapping env) ModelRole.CONTENT_GENERATOR
  let res := svc_chat env k messages service_name temperature 4000
  (chat_or "内容生成失败: " res.1, res.2)

structure ReviewResult where
  review : String
  status : String
deriving Repr, DecidableEq

/-- `MultiModelCollaborationEngine.review_quality`: the backend exception is
caught and turned into a `status = "error"` review record. -/
def review_quality (env : ChatEnv) (k : Nat) (content : String) (sec : String) :
    ReviewResult × Nat :=
  let temperature := (env.roleTemp ModelRole.QUALITY_REVIEWER).getD (3/10)
  let prompt0 := env.promptQualityReview content
  let prompt :=
    if sec.isEmpty then prompt0
    else "请审核以下论文" ++ sec ++ "部分的内容：\n\n" ++ prompt0
  let system_role := (env.roleDesc ModelRole.QUALITY_REVIEWER).getD "质量审核专家"
  let messages := [Msg.mk "system" system_role, Msg.mk "user" prompt]
  let service_name := Py.get? (role_service_mapping env) ModelRole.QUALITY_REVIEWER
  let res := svc_chat env k messages service_name temperature 3000
  (match res.1 with
   | .ok r => ⟨r, "success"⟩
   | .error e => ⟨"审核失败: " ++ e, "error"⟩, res.2)

/-- `MultiModelCollaborationEngine.optimize_structure`. -/
def optimize_structure (env : ChatEnv) (k : Nat) (content : String) (sec : String) :
    String × Nat :=
  let temperature := (env.roleTemp ModelRole.STRUCTURE_OPTIMIZER).getD (1/2)
  let prompt0 := env.promptStructureOptimization content
  let prompt :=
    if sec.isEmpty then prompt0
    else "请优化以下论文" ++ sec ++ "部分的结构：\n\n" ++ prompt0
  let system_role := (env.roleDesc ModelRole.STRUCTURE_OPTIMIZER).getD "结构优化专家"
  let messages := [Msg.mk "system" system_role, Msg.mk "user" prompt]
  let service_name := Py.get? (role_service_mapping env) ModelRole.STRUCTURE_OPTIMIZER
  let res := svc_chat env k messages service_name temperature 4000
  (chat_or "结构优化失败: " res.1, res.2)

/-- One entry of the `result["iterations"]` trace. -/
structure IterRecord where
  iteration : Nat
  type : String
  content : String
deriving Repr, DecidableEq

/-- Result of `collaborative_generation`. -/
structure GenResult where
  sec : String
  final_content : String
  iterations : List IterRecord
  status : String
  error : Option String
deriving Repr, DecidableEq

/-- Outcome of the iteration loop inside `collaborative_generation`. -/
structure LoopOut where
  final_content : String
  iterations : List IterRecord
  status : String
  error : Option String
  nextIdx : Nat
deriving Repr, DecidableEq

/-- The improvement prompt built inside the loop of `collaborative_generation`. -/
def improvement_prompt (current_content review optimized : String) : String :=
  "\n基于以下审核意见和优化建议，改进内容：\n\n原始内容：\n" ++ current_content ++
  "\n\n审核意见：\n" ++ review ++ "\n\n优化建议：\n" ++ optimized ++
  "\n\n请生成改进后的内容：\n"

/-- The `for i in range(iterations)` loop of `collaborative_generation`.
`review_quality`/`optimize_structure` absorb their own backend failures; only
the raw improvement `chat` call raises, which the enclosing `try` turns into
`status = "error"` keeping the records and content accumulated so far. -/
def gen_iterations_loop (env : ChatEnv) (sec : String) :
    Nat → Nat → Nat → String → List IterRecord → LoopOut
  | 0, k, _, current, recs => ⟨current, recs, "success", none, k⟩
  | fuel + 1, k, i, current, recs =>
    let rev := review_quality env k current sec
    let recs1 := recs ++ [⟨i + 1, "quality_review", rev.1.review⟩]
    let opt := optimize_structure env rev.2 current sec
    let recs2 := recs1 ++ [⟨i + 1, "structure_optimization", opt.1⟩]
    let system_role := (env.roleDesc ModelRole.CONTENT_GENERATOR).getD "内容生成专家"
    let messages := [Msg.mk "system" system_role,
                     Msg.mk "user" (improvement_prompt current rev.1.review opt.1)]
    let service_name := Py.get? (role_service_mapping env) ModelRole.CONTENT_GENERATOR
    let res := svc_chat env opt.2 messages service_name (7/10) 4000
    match res.1 with
    | .error e => ⟨current, recs2, "error", some e, res.2⟩
    | .ok improved =>
      gen_iterations_loop env sec fuel res.2 (i + 1) improved
        (recs2 ++ [⟨i + 1, "improved_generation", improved⟩])

/-- `MultiModelCollaborationEngine.collaborative_generation`. -/
def collaborative_generation (env : ChatEnv) (k : Nat) (sec : String)
    (collected_info : List (String × PyVal)) (iterations : Nat) : GenResult × Nat :=
  let initial := generate_content env k sec collected_info ""
  let out := gen_iterations_loop env sec iterations initial.2 0 initial.1
    [⟨0, "initial_generation", initial.1⟩]
  (⟨sec, out.final_content, out.iterations, out.status, out.error⟩, out.nextIdx)

/-! ## Information extractor (`AcademicPaperGenerator._extract_information`) -/

def lbrace : Char := Char.ofNat 123

def rbrace : Char := Char.ofNat 125

/-- `re.search(r"\x7b[^\x7d]+\x7d", response, re.DOTALL)`: the leftmost open
brace followed by at least one non-close-brace character and then a close
brace (the negated class spans newlines, so the DOTALL flag is inert here). -/
def findJsonBlockChars : List Char → Option (List Char)
  | [] => none
  | c :: rest =>
    if c = lbrace then
      let run := rest.takeWhile (fun ch => ch ≠ rbrace)
      let rem := rest.dropWhile (fun ch => ch ≠ rbrace)
      match rem with
      | closing :: _ =>
        if run.isEmpty then findJsonBlockChars rest
        else some (c :: run ++ [closing])
      | [] => findJsonBlockChars rest
    else findJsonBlockChars rest

def find_json_block (s : String) : Option String :=
  (findJsonBlockChars s.data).map (fun cs => String.mk cs)

/-- The inline extraction prompt of `_extract_information`. -/
def extraction_prompt_text (user_input stage : String) : String :=
  "\n请从以下用户输入中提取学术论文相关的信息，并以结构化方式返回：\n\n用户输入：\n" ++
  user_input ++ "\n\n当前阶段：" ++ stage ++
  "\n\n请提取以下类型的信息（如果有）：\n- 研究主题\n- 研究背景\n- 研究目标\n- 研究方法\n" ++
  "- 数据来源\n- 研究发现\n- 理论基础\n- 文献引用\n- 研究问题\n- 研究意义\n- 研究局限\n- 未来方向\n" ++
  "\n请以JSON格式返回提取的信息，例如：\n\x7b\n    \"研究主题\": \"...\",\n    \"研究背景\": \"...\",\n    ...\n\x7d\n" ++
  "\n如果某项信息不存在，请忽略该字段。\n"

/-- `AcademicPaperGenerator._extract_information`: one backend call, best-effort
JSON block parse, guaranteed fallback to the catch-all field on any failure. -/
def extract_information (env : ChatEnv) (k : Nat) (user_input : String) (stage : String) :
    List (String × PyVal) × Nat :=
  let extraction_prompt := extraction_prompt_text user_input stage
  let messages := [Msg.mk "system" "你是信息提取专家，擅长从文本中提取结构化信息。",
                   Msg.mk "user" extraction_prompt]
  let res := svc_chat env k messages none (3/10) 1000
  (match res.1 with
   | .error _ => [("用户补充信息", PyVal.vStr user_input)]
   | .ok response =>
     match find_json_block response with
     | some blk =>
       match env.parseJson blk with
       | some extracted => extracted
       | none => [("用户补充信息", PyVal.vStr user_input)]
     | none => [("用户补充信息", PyVal.vStr user_input)], res.2)

/-! ## Conversation manager (`conversation_manager.py`) -/

/-- The values stored in a session's `context` dict. -/
inductive CtxVal where
  | vInfo (d : List (String × PyVal))
  | vStage (s : String)
  | vMissing (l : List String)
  | vPaper (m : List (String × String))
  | vTrace (t : List IterRecord)
deriving Repr, DecidableEq

/-- A `ConversationSession`; `created_at`/`updated_at` timestamps influence no
control flow in the modelled operations and are elided. -/
structure Session where
  session_id : String
  user_id : String
  title : String
  messages : List Msg
  context : List (String × CtxVal)
  status : String
deriving Repr, DecidableEq

/-- The in-memory session map of `ConversationManager` (the JSON files on disk
mirror it with last-write-wins and are not separately modelled). -/
def Store : Type := List (String × Session)

/-- `ConversationManager.get_session`. -/
def get_session (store : Store) (session_id : String) : Option Session :=
  Py.get? store session_id

/-- `ConversationManager.add_message` (raises on unknown session). The Python
method mutates the stored session object in place; here the updated session is
written back to the map. -/
def add_message (store : Store) (session_id role content : String) :
    Except String Store :=
  match get_session store session_id with
  | none => .error ("会话不存在: " ++ session_id)
  | some s =>
    .ok (Py.insert store session_id
      { s with messages := s.messages ++ [Msg.mk role content] })

/-- `ConversationManager.get_messages`; `limit = some 0` behaves like no limit
because `0` is falsy in `if limit:`. -/
def get_messages (store : Store) (session_id : String) (limit : Option Nat) :
    List Msg :=
  match get_session store session_id with
  | none => []
  | some s =>
    match limit with
    | none => s.messages
    | some l => if l = 0 then s.messages else s.messages.drop (s.messages.length - l)

/-- `ConversationManager.get_messages_for_api`: projects each message to its
`role`/`content` pair, which is all a `Msg` holds here. -/
def get_messages_for_api (store : Store) (session_id : String) (limit : Option Nat) :
    List Msg :=
  (get_messages store session_id limit).map (fun m => Msg.mk m.role m.content)

/-- `ConversationManager.update_context` (merges, raises on unknown session). -/
def update_context (store : Store) (session_id : String)
    (context_updates : List (String × CtxVal)) : Except String Store :=
  match get_session store session_id with
  | none => .error ("会话不存在: " ++ session_id)
  | some s =>
    .ok (Py.insert store session_id
      { s with context := Py.update s.context context_updates })

/-- `ConversationManager.get_context` (empty dict on unknown session). -/
def get_context (store : Store) (session_id : String) : List (String × CtxVal) :=
  match get_session store session_id with
  | none => []
  | some s => s.context

/-- `ConversationManager.update_session_status` (raises on unknown session). -/
def update_session_status (store : Store) (session_id status : String) :
    Except String Store :=
  match get_session store session_id with
  | none => .error ("会话不存在: " ++ session_id)
  | some s => .ok (Py.insert store session_id { s with status := status })

/-! ## Paper generator (`paper_generator.py`) -/

namespace PaperGenerationStage

def INITIAL : String := "initial"

def RESEARCH_BACKGROUND : String := "research_background"

def METHODOLOGY : String := "methodology"

def RESULTS : String := "results"

def DISCUSSION : String := "discussion"

def LITERATURE_REVIEW : String := "literature_review"

def GENERATING : String := "generating"

def COMPLETED : String := "completed"

end PaperGenerationStage

/-- `self.stage_flow`. -/
def stage_flow : List String :=
  [PaperGenerationStage.INITIAL, PaperGenerationStage.RESEARCH_BACKGROUND,
   PaperGenerationStage.METHODOLOGY, PaperGenerationStage.RESULTS,
   PaperGenerationStage.DISCUSSION, PaperGenerationStage.LITERATURE_REVIEW,
   PaperGenerationStage.GENERATING]

/-- `max_rounds`/`min_rounds` from `paper_generation` config, with the source
defaults. -/
structure PaperConfig where
  max_rounds : Nat := 15
  min_rounds : Nat := 5
deriving Repr, DecidableEq

def default_paper_config : PaperConfig := {}

/-- The response dicts returned by the generator's entry points, with one
optional field per key that some code path emits (`sec`/`content` stand for
the `"section"`/`"content"` keys of `regenerate_section`). -/
structure Response where
  error : Option String := none
  session_id : Option String := none
  stage : Option String := none
  message : Option String := none
  round : Option Nat := none
  status : Option String := none
  missing_info : Option (List String) := none
  paper_content : Option (List (String × String)) := none
  sec : Option String := none
  content : Option String := none
deriving Repr, DecidableEq

/-- `context.get("collected_info", \x7b\x7d)`. -/
def ctx_collected_info (context : List (String × CtxVal)) : List (String × PyVal) :=
  match Py.get? context "collected_info" with
  | some (CtxVal.vInfo d) => d
  | _ => []

/-- `context.get("current_stage", PaperGenerationStage.INITIAL)`. -/
def ctx_current_stage (context : List (String × CtxVal)) : String :=
  match Py.get? context "current_stage" with
  | some (CtxVal.vStage s) => s
  | _ => PaperGenerationStage.INITIAL

/-- `context.get("paper_content", \x7b\x7d)` (used by `regenerate_section`). -/
def ctx_paper_content (context : List (String × CtxVal)) : List (String × String) :=
  match Py.get? context "paper_content" with
  | some (CtxVal.vPaper m) => m
  | _ => []

/-- `context.get("paper_content")` (used by `get_paper_content`, `None` when
absent). -/
def ctx_paper_content? (context : List (String × CtxVal)) :
    Option (List (String × String)) :=
  match Py.get? context "paper_content" with
  | some (CtxVal.vPaper m) => some m
  | _ => none

/-- `AcademicPaperGenerator._continue_information_collection`. -/
def continue_information_collection (env : ChatEnv) (k : Nat) (store : Store)
    (session_id : String) (current_stage : String)
    (collected_info : List (String × PyVal)) (current_round : Nat) :
    Except String (Response × Store × Nat) :=
  let stage_index :=
    if current_round ≥ stage_flow.length then stage_flow.length - 1 else current_round
  let next_stage := stage_flow.getD (min stage_index (stage_flow.length - 1)) ""
  match update_context store session_id [("current_stage", CtxVal.vStage next_stage)] with
  | .error e => .error e
  | .ok store1 =>
    let conversation_history := get_messages_for_api store1 session_id (some 6)
    let response := collect_information env k next_stage collected_info conversation_history
    match add_message store1 session_id "assistant" response.1 with
    | .error e => .error e
    | .ok store2 =>
      .ok ({ session_id := some session_id, stage := some next_stage,
             message := some response.1, round := some (current_round + 1),
             status := some "collecting" }, store2, response.2)

/-- The fixed prompt of `_collect_missing_information`. -/
def missing_information_prompt (missing_info_text : String) : String :=
  "\n感谢您提供的详细信息！我注意到还需要补充一些关键信息，以便生成更完整的论文：\n\n缺失的信息：" ++
  missing_info_text ++
  "\n\n请补充这些信息，或者如果您认为现有信息已经足够，我可以开始生成论文。您希望：\n\n" ++
  "1. 补充缺失的信息\n2. 基于现有信息开始生成论文\n\n请选择或直接提供补充信息。\n"

/-- `AcademicPaperGenerator._collect_missing_information`. -/
def collect_missing_information (store : Store) (session_id : String)
    (collected_info : List (String × PyVal)) (missing_info : List String) :
    Except String (Response × Store) :=
  let missing_info_text := String.intercalate "、" missing_info
  let prompt := missing_information_prompt missing_info_text
  match add_message store session_id "assistant" prompt with
  | .error e => .error e
  | .ok store1 =>
    .ok ({ session_id := some session_id, stage := some "collecting_missing",
           message := some prompt, missing_info := some missing_info,
           status := some "collecting" }, store1)

/-- The fixed transition notice of `_start_paper_generation`. -/
def generation_notification : String :=
  "\n非常好！我已经收集到足够的信息。现在我将开始为您生成学术论文。\n\n生成过程包括以下步骤：\n" ++
  "1. 生成摘要（Abstract）\n2. 生成引言（Introduction）\n3. 生成文献综述（Literature Review）\n" ++
  "4. 生成研究方法（Methodology）\n5. 生成研究结果（Results）\n6. 生成讨论（Discussion）\n" ++
  "7. 生成结论（Conclusion）\n\n整个过程可能需要几分钟时间，请稍候...\n"

/-- The fixed completion notice of `_start_paper_generation`. -/
def completion_message : String :=
  "\n论文生成完成！您可以在右侧查看完整的论文内容。\n\n您可以：\n1. 下载论文\n" ++
  "2. 继续修改某个部分\n3. 重新生成某个章节\n\n请告诉我您的需求。\n"

/-- The fixed section sequence of `_generate_full_paper`. -/
def paper_sections : List String :=
  ["abstract", "introduction", "literature_review", "methodology",
   "results", "discussion", "conclusion"]

/-- The per-section loop body of `_generate_full_paper`: one
`collaborative_generation` with `iterations = 1`, collect `final_content`,
persist the iteration trace under `f"<section>_generation_process"`. -/
def generate_sections (env : ChatEnv) (session_id : String)
    (collected_info : List (String × PyVal)) :
    List String → Nat → Store → List (String × String) →
    Except String (List (String × String) × Store × Nat)
  | [], k, store, acc => .ok (acc, store, k)
  | sec :: rest, k, store, acc =>
    let result := collaborative_generation env k sec collected_info 1
    let acc1 := Py.insert acc sec result.1.final_content
    match update_context store session_id
        [(sec ++ "_generation_process", CtxVal.vTrace result.1.iterations)] with
    | .error e => .error e
    | .ok store1 => generate_sections env session_id collected_info rest result.2 store1 acc1

/-- `AcademicPaperGenerator._start_paper_generation` (running
`_generate_full_paper` inline, as the source does synchronously). -/
def start_paper_generation (env : ChatEnv) (k : Nat) (store : Store)
    (session_id : String) (collected_info : List (String × PyVal)) :
    Except String (Response × Store × Nat) :=
  match update_context store session_id
      [("current_stage", CtxVal.vStage PaperGenerationStage.GENERATING)] with
  | .error e => .error e
  | .ok store1 =>
    match add_message store1 session_id "assistant" generation_notification with
    | .error e => .error e
    | .ok store2 =>
      match generate_sections env session_id collected_info paper_sections k store2 [] with
      | .error e => .error e
      | .ok out =>
        match update_context out.2.1 session_id
            [("paper_content", CtxVal.vPaper out.1),
             ("current_stage", CtxVal.vStage PaperGenerationStage.COMPLETED)] with
        | .error e => .error e
        | .ok store3 =>
          match update_session_status store3 session_id "completed" with
          | .error e => .error e
          | .ok store4 =>
            match add_message store4 session_id "assistant" completion_message with
            | .error e => .error e
            | .ok store5 =>
              .ok ({ session_id := some session_id,
                     stage := some PaperGenerationStage.COMPLETED,
                     message := some completion_message,
                     paper_content := some out.1,
                     status := some "completed" }, store5, out.2.2)

/-- `AcademicPaperGenerator.process_user_input`, the Stage Controller. The
Python method reads `len(session.messages)` through the session object that
`add_message` mutated in place, so the round count is re-read from the updated
store (the session is known to be present at that point). -/
def process_user_input (cfg : PaperConfig) (env : ChatEnv) (k : Nat) (store : Store)
    (session_id user_input : String) : Except String (Response × Store × Nat) :=
  match get_session store session_id with
  | none => .ok ({ error := some "会话不存在" }, store, k)
  | some _ =>
    match add_message store session_id "user" user_input with
    | .error e => .error e
    | .ok store1 =>
      let context := get_context store1 session_id
      let current_stage := ctx_current_stage context
      let collected_info := ctx_collected_info context
      let extracted := extract_information env k user_input current_stage
      let collected_info1 := Py.update collected_info extracted.1
      match update_context store1 session_id
          [("collected_info", CtxVal.vInfo collected_info1)] with
      | .error e => .error e
      | .ok store2 =>
        let current_round :=
          (match get_session store2 session_id with
           | some s => s.messages.length
           | none => 0) / 2
        if current_round < cfg.min_rounds then
          continue_information_collection env extracted.2 store2 session_id
            current_stage collected_info1 current_round
        else
          let completeness := check_information_completeness collected_info1
          if completeness.is_complete = true ∨ cfg.max_rounds ≤ current_round then
            start_paper_generation env extracted.2 store2 session_id collected_info1
          else
            match collect_missing_information store2 session_id collected_info1
                completeness.missing_info with
            | .error e => .error e
            | .ok out => .ok (out.1, out.2, extracted.2)

/-- `AcademicPaperGenerator.regenerate_section` (the
`additional_requirements` argument is accepted and ignored by the source). -/
def regenerate_section (env : ChatEnv) (k : Nat) (store : Store)
    (session_id sec additional_requirements : String) :
    Except String (Response × Store × Nat) :=
  let context := get_context store session_id
  let collected_info := ctx_collected_info context
  let result := collaborative_generation env k sec collected_info 1
  let paper_content := ctx_paper_content context
  let paper_content1 := Py.insert paper_content sec result.1.final_content
  match update_context store session_id
      [("paper_content", CtxVal.vPaper paper_content1)] with
  | .error e => .error e
  | .ok store1 =>
    .ok ({ session_id := some session_id, sec := some sec,
           content := some result.1.final_content,
           status := some "success" }, store1, result.2)

/-- `AcademicPaperGenerator.get_paper_content`. -/
def get_paper_content (store : Store) (session_id : String) :
    Option (List (String × String)) :=
  ctx_paper_content? (get_context store session_id)

/-- Section order and headings of `_export_as_markdown`. -/
def sections_order_markdown : List (String × String) :=
  [("abstract", "摘要 (Abstract)"), ("introduction", "引言 (Introduction)"),
   ("literature_review", "文献综述 (Literature Review)"),
   ("methodology", "研究方法 (Methodology)"), ("results", "研究结果 (Results)"),
   ("discussion", "讨论 (Discussion)"), ("conclusion", "结论 (Conclusion)")]

/-- Section order and headings of `_export_as_text`. -/
def sections_order_text : List (String × String) :=
  [("abstract", "摘要"), ("introduction", "引言"), ("literature_review", "文献综述"),
   ("methodology", "研究方法"), ("results", "研究结果"), ("discussion", "讨论"),
   ("conclusion", "结论")]

/-- `"=" * n` and friends. -/
def repeat_char (c : Char) (n : Nat) : String :=
  String.mk (List.replicate n c)

/-- `AcademicPaperGenerator._export_as_markdown`; `now` is the already
formatted `datetime.now().strftime("%Y-%m-%d %H:%M:%S")` reading taken during
the call. -/
def export_as_markdown (now : String) (paper_content : List (String × String)) : String :=
  let header := "# 学术论文\n\n" ++ "生成时间：" ++ now ++ "\n\n" ++ "---\n\n"
  List.foldl
    (fun acc p =>
      match Py.get? paper_content p.1 with
      | some text => acc ++ "## " ++ p.2 ++ "\n\n" ++ text ++ "\n\n"
      | none => acc)
    header sections_order_markdown

/-- `AcademicPaperGenerator._export_as_text`. -/
def export_as_text (now : String) (paper_content : List (String × String)) : String :=
  let header := repeat_char (Char.ofNat 61) 60 ++ "\n" ++ "学术论文\n" ++
    "生成时间：" ++ now ++ "\n" ++ repeat_char (Char.ofNat 61) 60 ++ "\n\n"
  List.foldl
    (fun acc p =>
      match Py.get? paper_content p.1 with
      | some text => acc ++ p.2 ++ "\n" ++ repeat_char (Char.ofNat 45) 60 ++ "\n\n" ++
          text ++ "\n\n"
      | none => acc)
    header sections_order_text

/-- `AcademicPaperGenerator.export_paper` (empty string when the paper content
is absent or falsy). -/
def export_paper (store : Store) (session_id : String) (fmt now : String) : String :=
  match get_paper_content store session_id with
  | none => ""
  | some paper_content =>
    if paper_content.isEmpty then ""
    else if fmt = "markdown" then export_as_markdown now paper_content
    else if fmt = "text" then export_as_text now paper_content
    else export_as_markdown now paper_content

/-! ## Concrete environments and stores used by witnesses and counterexamples -/

/-- An environment with a given backend oracle and JSON parser, one registered
service and empty role configuration (all defaults apply). -/
def mkEnv (resp : Nat → Except String String)
    (parseJson : String → Option (List (String × PyVal))) : ChatEnv :=
  { resp := resp
    roleDesc := fun _ => none
    roleTemp := fun _ => none
    services := ["primary_service"]
    parseJson := parseJson
    promptCollabCollector := fun _ _ => ""
    promptContentGeneration := fun _ _ => ""
    promptQualityReview := fun _ => ""
    promptStructureOptimization := fun _ => "" }

/-- Oracle for the C3 counterexample: the review call of iteration 1 (trace
index 1) fails, every other call succeeds. -/
def c3_env : ChatEnv :=
  mkEnv (fun n => if n = 1 then .error "后端连接失败" else .ok ("内容" ++ toString n))
    (fun _ => none)

/-- Oracle for the C3 amended witness: the improvement call of iteration 2
(trace index 6 with `k0 = 0`) fails, every other call succeeds. -/
def c3w_env : ChatEnv :=
  mkEnv (fun n => if n = 6 then .error "请求超时" else .ok ("版本" ++ toString n))
    (fun _ => none)

/-- Backend for the C4 witness: a response with no brace-delimited block. -/
def c4_env : ChatEnv :=
  mkEnv (fun _ => .ok "好的，我未能找到结构化信息。") (fun _ => none)

/-- Backend for the C7 counterexample: the extraction call returns a JSON
block that sets the required field `研究主题` to the empty string, and the
parser behaves as `json.loads` on exactly that block. -/
def c7_env : ChatEnv :=
  mkEnv
    (fun n =>
      if n = 0 then .ok ("提取结果：\x7b\"研究主题\": \"\"\x7d")
      else .ok "请继续补充研究背景。")
    (fun s =>
      if s = "\x7b\"研究主题\": \"\"\x7d" then some [("研究主题", PyVal.vStr "")]
      else none)

/-- Store for the C7 counterexample: a session whose `collected_info` already
holds a non-empty `研究主题`, with 7 prior messages (so the next turn has
round 4 and stays in the collection phase). -/
def c7_store : Store :=
  [("s7",
    { session_id := "s7", user_id := "u7", title := "新论文项目"
      messages := List.replicate 7 (Msg.mk "user" "历史消息")
      context := [("collected_info", CtxVal.vInfo [("研究主题", PyVal.vStr "AI与教育研究")])]
      status := "active" })]

/-- The C7 counterexample turn. -/
def c7_run : Except String (Response × Store × Nat) :=
  process_user_input default_paper_config c7_env 0 c7_store "s7" "这次我不想透露更多信息"

def c7_run_ok : Bool :=
  match c7_run with
  | .ok _ => true
  | .error _ => false

/-- The store after the C7 counterexample turn. -/
def c7_store_after : Store :=
  match c7_run with
  | .ok out => out.2.1
  | .error _ => []

/-- Environment and store for the C7 amended witness: extraction falls back to
the catch-all field, which never deletes existing keys. -/
def c7w_env : ChatEnv :=
  mkEnv (fun _ => .ok "无结构化信息") (fun _ => none)

def c7w_store : Store :=
  [("s7w",
    { session_id := "s7w", user_id := "u", title := "新论文项目"
      messages := List.replicate 3 (Msg.mk "user" "历史消息")
      context := [("collected_info", CtxVal.vInfo [("研究主题", PyVal.vStr "AI")])]
      status := "active" })]

/-- Store for the C8 counterexample: a completed session with paper content. -/
def c8_store : Store :=
  [("s8",
    { session_id := "s8", user_id := "u8", title := "新论文项目"
      messages := []
      context := [("paper_content", CtxVal.vPaper [("abstract", "本研究的摘要。")])]
      status := "completed" })]

/-- Store and environment for the C1 witness: 29 stored messages, so the next
user turn is round 15, with zero required fields collected. -/
def c1_store : Store :=
  [("s1",
    { session_id := "s1", user_id := "u1", title := "新论文项目"
      messages := List.replicate 29 (Msg.mk "user" "历史消息")
      context := [], status := "active" })]

def c1_env : ChatEnv := mkEnv (fun _ => .error "没有可用的AI服务") (fun _ => none)

/-- Store and environment for the C6 witness: 3 stored messages, so the next
user turn is round 2 of the collection phase. -/
def c6_store : Store :=
  [("s6",
    { session_id := "s6", user_id := "u6", title := "新论文项目"
      messages := List.replicate 3 (Msg.mk "user" "历史消息")
      context := [], status := "active" })]

def c6_env : ChatEnv := mkEnv (fun _ => .ok "请介绍您的研究方法。") (fun _ => none)

/-- Store and environment for the C9 witness: a finalized session holding two
generated sections. -/
def c9_store : Store :=
  [("s9",
    { session_id := "s9", user_id := "u9", title := "新论文项目"
      messages := []
      context :=
        [("collected_info", CtxVal.vInfo [("研究主题", PyVal.vStr "AI")]),
         ("paper_content",
          CtxVal.vPaper [("abstract", "旧摘要"), ("conclusion", "旧结论")])]
      status := "completed" })]

def c9_env : ChatEnv := mkEnv (fun _ => .ok "新生成的章节内容") (fun _ => none)

/-- Store and environment for the C10-adjacent witnesses of the stage
controller (a fresh two-message session as created by `start_new_paper`). -/
def c4w_input : String := "我的研究关注鸟类迁徙的路径建模"

/-! ### Basic dictionary lemmas -/

theorem Py.get?_insert_self {α : Type} (l : List (String × α)) (k : String) (v : α) :
    Py.get? (Py.insert l k v) k = some v := by
  induction l with
  | nil => simp [Py.insert, Py.get?]
  | cons hd tl ih =>
    by_cases h : hd.1 = k
    · simp [Py.insert, Py.get?, h]
    · simp [Py.insert, Py.get?, h, ih]

theorem Py.get?_insert_other {α : Type} (l : List (String × α)) (k k' : String) (v : α)
    (h : k ≠ k') : Py.get? (Py.insert l k v) k' = Py.get? l k' := by
  induction l with
  | nil => simp [Py.insert, Py.get?, h]
  | cons hd tl ih =>
    by_cases hh : hd.1 = k
    · simp [Py.insert, Py.get?, hh, h]
    · simp [Py.insert, Py.get?, hh, ih]

theorem Py.get?_insert_isSome {α : Type} (l : List (String × α)) (k k' : String) (v : α)
    (h : (Py.get? l k').isSome) : (Py.get? (Py.insert l k v) k').isSome := by
  by_cases hk : k = k'
  · subst hk; simp [Py.get?_insert_self]
  · rwa [Py.get?_insert_other l k k' v hk]

theorem Py.get?_update_isSome {α : Type} (l e : List (String × α)) (k : String)
    (h : (Py.get? l k).isSome) : (Py.get? (Py.update l e) k).isSome := by
  induction e generalizing l with
  | nil => simpa [Py.update]
  | cons hd tl ih =>
    have step : (Py.get? (Py.insert l hd.1 hd.2) k).isSome :=
      Py.get?_insert_isSome l hd.1 k hd.2 h
    simpa [Py.update] using ih (Py.insert l hd.1 hd.2) step

theorem Py.update_nil {α : Type} (l : List (String × α)) : Py.update l [] = l := rfl

theorem Py.update_cons {α : Type} (l : List (String × α)) (kv : String × α)
    (rest : List (String × α)) :
    Py.update l (kv :: rest) = Py.update (Py.insert l kv.1 kv.2) rest := rfl

/-! ### Completeness checker facts -/

theorem fieldMissing_false_iff (collected_info : List (String × PyVal)) (f : String) :
    fieldMissing collected_info f = false ↔
      ∃ v, Py.get? collected_info f = some v ∧ v.truthy = true := by
  unfold fieldMissing
  cases h : Py.get? collected_info f with
  | none => simp
  | some v => simp

theorem fieldMissing_true_iff (collected_info : List (String × PyVal)) (f : String) :
    fieldMissing collected_info f = true ↔
      ∀ v, Py.get? collected_info f = some v → v.truthy = false := by
  unfold fieldMissing
  cases h : Py.get? collected_info f with
  | none => simp
  | some v => simp

/-- C5: the completeness check is a pure function of `collected_info` over the
fixed six required fields: `is_complete` holds iff every required field is
present with a truthy value, `missing_info` is exactly the list of
absent-or-falsy required fields in required-set order (a sublist of
`required_fields`), and `completeness_rate = (6 - |missing_info|) / 6`. -/
theorem C5_completeness_check (collected_info : List (String × PyVal)) :
    ((check_information_completeness collected_info).is_complete = true ↔
      ∀ f ∈ required_fields, ∃ v, Py.get? collected_info f = some v ∧ v.truthy = true)
    ∧ (∀ f, f ∈ (check_information_completeness collected_info).missing_info ↔
        f ∈ required_fields ∧
          ∀ v, Py.get? collected_info f = some v → v.truthy = false)
    ∧ (check_information_completeness collected_info).missing_info.Sublist required_fields
    ∧ (check_information_completeness collected_info).completeness_rate =
        ((6 : ℚ) - ((check_information_completeness collected_info).missing_info.length : ℚ)) / 6 := by
  refine ⟨?_, ?_, ?_, ?_⟩
  · simp only [check_information_completeness, beq_iff_eq, List.length_eq_zero,
      List.filter_eq_nil_iff, Bool.not_eq_true, fieldMissing_false_iff]
  · intro f
    simp only [check_information_completeness, List.mem_filter, fieldMissing_true_iff]
  · exact List.filter_sublist (l := required_fields)
  · norm_num [check_information_completeness, required_fields]

/-! ### Role assignment -/

theorem some_getD_elem (l : List String) (m : Nat) (h : m < l.length) :
    some (l[m]?.getD "") = l[m]? := by
  rw [List.getElem?_eq_getElem h]
  rfl

theorem assign_cons_cons (a b : String) (t : List String) :
    assign_services_to_roles (a :: b :: t) =
      [(ModelRole.INFORMATION_COLLECTOR, (a :: b :: t).getD (0 % (a :: b :: t).length) ""),
       (ModelRole.CONTENT_GENERATOR, (a :: b :: t).getD (1 % (a :: b :: t).length) ""),
       (ModelRole.QUALITY_REVIEWER, (a :: b :: t).getD (2 % (a :: b :: t).length) ""),
       (ModelRole.STRUCTURE_OPTIMIZER, (a :: b :: t).getD (3 % (a :: b :: t).length) "")] :=
  rfl

/-- C2: with `N = 0` registered backends the role mapping is empty; with
`N ≥ 1`, role `i` (0-indexed in the fixed order collector, generator,
reviewer, optimizer) maps to the backend at index `i % N` of the registered
name sequence — in particular, for `N = 1` every role maps to the single
backend since `i % 1 = 0`. -/
theorem C2_round_robin :
    assign_services_to_roles [] = []
    ∧ ∀ (services : List String), services ≠ [] → ∀ i : Fin 4,
        Py.get? (assign_services_to_roles services)
            (collaboration_roles.getD i.val "") =
          services[i.val % services.length]? := by
  refine ⟨rfl, ?_⟩
  intro services hs i
  match services, hs with
  | [a], _ =>
    fin_cases i <;>
      simp [assign_services_to_roles, collaboration_roles, List.getD,
        ModelRole.INFORMATION_COLLECTOR, ModelRole.CONTENT_GENERATOR,
        ModelRole.QUALITY_REVIEWER, ModelRole.STRUCTURE_OPTIMIZER, Py.get?]
  | a :: b :: t, _ =>
    fin_cases i <;>
      simp [assign_cons_cons, collaboration_roles, List.getD,
        ModelRole.INFORMATION_COLLECTOR, ModelRole.CONTENT_GENERATOR,
        ModelRole.QUALITY_REVIEWER, ModelRole.STRUCTURE_OPTIMIZER, Py.get?] <;>
      exact some_getD_elem (a :: b :: t) _ (Nat.mod_lt _ (by simp))

/-- C2 witness: two backends, role 3 (optimizer) maps to index `3 % 2 = 1`. -/
theorem C2_round_robin_witness :
    Py.get? (assign_services_to_roles ["ollama", "api_1_glm"])
        (collaboration_roles.getD 3 "") =
      ["ollama", "api_1_glm"][3 % 2]? :=
  C2_round_robin.2 ["ollama", "api_1_glm"] (by decide) 3

/-! ### C10: operations on an unknown session identifier -/

/-- C10: for a session identifier absent from the store, `get_context`
returns the empty mapping and `get_messages` the empty list (no exception),
while `add_message`, `update_context` and `update_session_status` raise the
session-not-found error. -/
theorem C10_unknown_session (store : Store) (session_id : String)
    (h : get_session store session_id = none) :
    get_context store session_id = []
    ∧ (∀ limit, get_messages store session_id limit = [])
    ∧ (∀ role content, add_message store session_id role content =
        .error ("会话不存在: " ++ session_id))
    ∧ (∀ updates, update_context store session_id updates =
        .error ("会话不存在: " ++ session_id))
    ∧ (∀ status, update_session_status store session_id status =
        .error ("会话不存在: " ++ session_id)) := by
  refine ⟨?_, ?_, ?_, ?_, ?_⟩ <;>
    simp [get_context, get_messages, add_message, update_context,
      update_session_status, h]

/-- C10 witness: the empty store at a concrete identifier. -/
theorem C10_unknown_session_witness :
    get_context ([] : Store) "ghost_session" = []
    ∧ (∀ limit, get_messages ([] : Store) "ghost_session" limit = [])
    ∧ (∀ role content, add_message ([] : Store) "ghost_session" role content =
        .error ("会话不存在: " ++ "ghost_session"))
    ∧ (∀ updates, update_context ([] : Store) "ghost_session" updates =
        .error ("会话不存在: " ++ "ghost_session"))
    ∧ (∀ status, update_session_status ([] : Store) "ghost_session" status =
        .error ("会话不存在: " ++ "ghost_session")) :=
  C10_unknown_session [] "ghost_session" rfl

/-! ### C4: extractor fallback -/

/-- C4: whenever the structured-parse attempt fails — the backend call raised,
or the response holds no brace-delimited block, or `json.loads` fails on the
block — the extractor returns exactly the one-entry mapping from the catch-all
field to the raw user turn. (The embedding of `_extract_information` is a
total function: every failure path lands in this fallback rather than in a
raised exception, which is the "never raises past its boundary" half of the
claim.) -/
theorem C4_extractor_fallback (env : ChatEnv) (k : Nat) (user_input stage : String)
    (hfail : ∀ r, env.resp k = Except.ok r →
      ∀ blk, find_json_block r = some blk → env.parseJson blk = none) :
    (extract_information env k user_input stage).1 =
      [("用户补充信息", PyVal.vStr user_input)] := by
  simp only [extract_information, svc_chat]
  cases hr : env.resp k with
  | error e => simp
  | ok r =>
    cases hb : find_json_block r with
    | none => simp [hb]
    | some blk => simp [hb, hfail r hr blk hb]

/-- C4 witness: a backend response without any JSON object. -/
theorem C4_extractor_fallback_witness :
    (extract_information c4_env 0 c4w_input "initial").1 =
      [("用户补充信息", PyVal.vStr c4w_input)] :=
  C4_extractor_fallback c4_env 0 c4w_input "initial" (fun _ _ _ _ => rfl)

/-! ### C8: export determinism -/

/-- C8 counterexample: both exporters embed `datetime.now()` into the output,
so two export calls on the identical stored `paper_content`, with no mutation
in between but with clock readings one second apart, give different bytes. -/
theorem C8_counterexample :
    export_paper c8_store "s8" "markdown" "2025-01-01 00:00:00" ≠
      export_paper c8_store "s8" "markdown" "2025-01-01 00:00:01" := by
  decide

/-- C8 amended: the export output is a pure function of the stored paper
content, the format and the formatted clock reading, so two export calls with
no mutation in between are byte-identical whenever both observe the same
formatted generation time (the timestamp header is the only part that can
differ). -/
theorem C8_amended_determinism (store : Store) (session_id fmt now now' : String)
    (h : now = now') :
    export_paper store session_id fmt now = export_paper store session_id fmt now' := by
  rw [h]

/-- C8 amended witness: two same-second markdown exports agree. -/
theorem C8_amended_determinism_witness :
    export_paper c8_store "s8" "markdown" "2025-01-01 00:00:00" =
      export_paper c8_store "s8" "markdown" "2025-01-01 00:00:00" :=
  C8_amended_determinism c8_store "s8" "markdown" _ _ rfl

/-! ### C3: failure policy of the collaborative generation loop -/

theorem gen_loop_fail (env : ChatEnv) (sec e : String) :
    ∀ (m : Nat) (g : Nat → String) (fuel k i : Nat) (current : String)
      (recs : List IterRecord),
      m < fuel →
      (∀ j, j < m → env.resp (k + 3 * j + 2) = .ok (g j)) →
      env.resp (k + 3 * m + 2) = .error e →
      (gen_iterations_loop env sec fuel k i current recs).status = "error"
      ∧ (gen_iterations_loop env sec fuel k i current recs).error = some e
      ∧ (gen_iterations_loop env sec fuel k i current recs).final_content =
          (if m = 0 then current else g (m - 1))
      ∧ (gen_iterations_loop env sec fuel k i current recs).iterations.length =
          recs.length + 3 * m + 2 := by
  intro m
  induction m with
  | zero =>
    intro g fuel k i current recs hm hok hfail
    obtain ⟨f, rfl⟩ : ∃ f, fuel = f + 1 := ⟨fuel - 1, by omega⟩
    have hf : env.resp (k + 1 + 1) = .error e := by
      have h2 : k + 3 * 0 + 2 = k + 1 + 1 := by omega
      rwa [h2] at hfail
    refine ⟨?_, ?_, ?_, ?_⟩ <;>
      simp [gen_iterations_loop, review_quality, optimize_structure, svc_chat, hf,
        List.length_append]
  | succ m ih =>
    intro g fuel k i current recs hm hok hfail
    obtain ⟨f, rfl⟩ : ∃ f, fuel = f + 1 := ⟨fuel - 1, by omega⟩
    have h0 : env.resp (k + 1 + 1) = .ok (g 0) := by
      have h1 := hok 0 (by omega)
      have h2 : k + 3 * 0 + 2 = k + 1 + 1 := by omega
      rwa [h2] at h1
    have hstep : gen_iterations_loop env sec (f + 1) k i current recs =
        gen_iterations_loop env sec f (k + 1 + 1 + 1) (i + 1) (g 0)
          (((recs ++ [⟨i + 1, "quality_review",
               (review_quality env k current sec).1.review⟩])
            ++ [⟨i + 1, "structure_optimization",
               (optimize_structure env (k + 1) current sec).1⟩])
            ++ [⟨i + 1, "improved_generation", g 0⟩]) := by
      simp [gen_iterations_loop, review_quality, optimize_structure, svc_chat, h0]
    obtain ⟨hs, he, hc, hl⟩ :=
      ih (fun j => g (j + 1)) f (k + 1 + 1 + 1) (i + 1) (g 0)
        (((recs ++ [⟨i + 1, "quality_review",
             (review_quality env k current sec).1.review⟩])
          ++ [⟨i + 1, "structure_optimization",
             (optimize_structure env (k + 1) current sec).1⟩])
          ++ [⟨i + 1, "improved_generation", g 0⟩])
        (by omega)
        (fun j hj => by
          have h1 := hok (j + 1) (by omega)
          have h2 : k + 3 * (j + 1) + 2 = k + 1 + 1 + 1 + 3 * j + 2 := by ring
          rwa [h2] at h1)
        (by
          have h2 : k + 3 * (m + 1) + 2 = k + 1 + 1 + 1 + 3 * m + 2 := by ring
          rwa [h2] at hfail)
    rw [hstep]
    refine ⟨hs, he, ?_, ?_⟩
    · rw [hc]
      cases m with
      | zero => simp
      | succ m' => simp
    · rw [hl]
      simp [List.length_append]
      omega

/-- C3 counterexample: with three iterations and a backend oracle whose call
of trace index 1 — the review call of iteration 1, a backend call inside the
loop — raises, the loop does NOT abort: `review_quality` swallows the failure,
all three iterations run (10 trace records), and the returned status is
`"success"` with no error, contradicting the claimed failure policy. -/
theorem C3_counterexample :
    c3_env.resp 1 = .error "后端连接失败"
    ∧ (collaborative_generation c3_env 0 "abstract" [] 3).1.status = "success"
    ∧ (collaborative_generation c3_env 0 "abstract" [] 3).1.error = none
    ∧ (collaborative_generation c3_env 0 "abstract" [] 3).1.iterations.length = 10 := by
  decide

/-- C3 amended: only a failure of the improvement-step `chat` call (the one
issued directly by `collaborative_generation`, trace index `k0 + 3*i` for
iteration `i`) aborts the loop; review/optimize/initial-generation failures
are caught inside their helper methods and flow into the trace as error text
while the loop continues. If the improvement call of iteration `i` fails and
the improvement calls of iterations `1..i-1` succeeded, no further iterations
run, `status = "error"` with the message recorded, and `final_content` is the
last successfully produced content: iteration `i-1`'s improved content, or
the (error-absorbing) initial generation result when `i = 1` — in particular
a failure on iteration 2 of a 3-iteration run returns iteration 1's improved
content. -/
theorem C3_amended_improvement_failure (env : ChatEnv) (k0 : Nat) (sec : String)
    (collected_info : List (String × PyVal)) (n i : Nat) (e : String)
    (g : Nat → String) (h1 : 1 ≤ i) (h2 : i ≤ n)
    (hfail : env.resp (k0 + 3 * i) = .error e)
    (hok : ∀ j, 1 ≤ j → j < i → env.resp (k0 + 3 * j) = .ok (g j)) :
    (collaborative_generation env k0 sec collected_info n).1.status = "error"
    ∧ (collaborative_generation env k0 sec collected_info n).1.error = some e
    ∧ (collaborative_generation env k0 sec collected_info n).1.final_content =
        (if i = 1 then chat_or "内容生成失败: " (env.resp k0) else g (i - 1))
    ∧ (collaborative_generation env k0 sec collected_info n).1.iterations.length =
        1 + 3 * (i - 1) + 2 := by
  obtain ⟨hs, he, hc, hl⟩ :=
    gen_loop_fail env sec e (i - 1) (fun j => g (j + 1)) n (k0 + 1) 0
      ((generate_content env k0 sec collected_info "").1)
      [⟨0, "initial_generation", (generate_content env k0 sec collected_info "").1⟩]
      (by omega)
      (fun j hj => by
        have ha := hok (j + 1) (by omega) (by omega)
        have hb : k0 + 3 * (j + 1) = k0 + 1 + 3 * j + 2 := by ring
        rwa [hb] at ha)
      (by
        have hb : k0 + 3 * i = k0 + 1 + 3 * (i - 1) + 2 := by omega
        rwa [hb] at hfail)
  refine ⟨hs, he, ?_, ?_⟩
  · rw [show (collaborative_generation env k0 sec collected_info n).1.final_content =
      (gen_iterations_loop env sec n (k0 + 1) 0
        ((generate_content env k0 sec collected_info "").1)
        [⟨0, "initial_generation",
          (generate_content env k0 sec collected_info "").1⟩]).final_content from rfl]
    rw [hc]
    rcases Nat.lt_or_ge i 2 with hi | hi
    · have : i = 1 := by omega
      subst this
      simp
      rfl
    · have hne : ¬ (i - 1 = 0) := by omega
      simp only [hne, if_neg, ite_false]
      have : i - 1 - 1 + 1 = i - 1 := by omega
      rw [this]
      have hne2 : ¬ (i = 1) := by omega
      simp [hne2]
  · rw [show (collaborative_generation env k0 sec collected_info n).1.iterations =
      (gen_iterations_loop env sec n (k0 + 1) 0
        ((generate_content env k0 sec collected_info "").1)
        [⟨0, "initial_generation",
          (generate_content env k0 sec collected_info "").1⟩]).iterations from rfl]
    rw [hl]
    simp

/-- C3 amended witness: improvement call of iteration 2 (trace index 6) fails
in a 3-iteration run; the result is iteration 1's improved content with
`status = "error"`. -/
theorem C3_amended_improvement_failure_witness :
    (collaborative_generation c3w_env 0 "abstract" [] 3).1.status = "error"
    ∧ (collaborative_generation c3w_env 0 "abstract" [] 3).1.error = some "请求超时"
    ∧ (collaborative_generation c3w_env 0 "abstract" [] 3).1.final_content =
        (if 2 = 1 then chat_or "内容生成失败: " (c3w_env.resp 0)
         else (fun j => "版本" ++ toString (3 * j)) (2 - 1))
    ∧ (collaborative_generation c3w_env 0 "abstract" [] 3).1.iterations.length =
        1 + 3 * (2 - 1) + 2 :=
  C3_amended_improvement_failure c3w_env 0 "abstract" [] 3 2 "请求超时"
    (fun j => "版本" ++ toString (3 * j)) (by omega) (by omega) (by decide)
    (fun j hj1 hj2 => by
      have : j = 1 := by omega
      subst this
      decide)

/-! ### Stage-controller infrastructure -/

theorem key_ne_gen_process (sec key : String) (h : key.length < 19) :
    sec ++ "_generation_process" ≠ key := by
  intro he
  rw [← he, String.length_append] at h
  have h19 : ("_generation_process" : String).length = 19 := by decide
  omega

theorem generate_sections_spec (env : ChatEnv) (sid : String)
    (info : List (String × PyVal)) :
    ∀ (secs : List String) (k : Nat) (store : Store) (acc : List (String × String))
      (s : Session), get_session store sid = some s →
      ∃ pc store' k' s',
        generate_sections env sid info secs k store acc = .ok (pc, store', k')
        ∧ get_session store' sid = some s'
        ∧ s'.messages = s.messages
        ∧ s'.status = s.status
        ∧ ∀ key : String, key.length < 19 →
            Py.get? s'.context key = Py.get? s.context key := by
  intro secs
  induction secs with
  | nil =>
    intro k store acc s h
    exact ⟨acc, store, k, s, rfl, h, rfl, rfl, fun _ _ => rfl⟩
  | cons sec rest ih =>
    intro k store acc s h
    have hupd : update_context store sid
        [(sec ++ "_generation_process",
          CtxVal.vTrace (collaborative_generation env k sec info 1).1.iterations)] =
        .ok (Py.insert store sid
          { s with context := (Py.update s.context
              [(sec ++ "_generation_process",
                CtxVal.vTrace (collaborative_generation env k sec info 1).1.iterations)]) }) := by
      simp [update_context, h]
    have h1 : get_session (Py.insert store sid
        { s with context := (Py.update s.context
            [(sec ++ "_generation_process",
              CtxVal.vTrace (collaborative_generation env k sec info 1).1.iterations)]) }) sid =
        some { s with context := (Py.update s.context
            [(sec ++ "_generation_process",
              CtxVal.vTrace (collaborative_generation env k sec info 1).1.iterations)]) } :=
      Py.get?_insert_self store sid _
    obtain ⟨pc, store', k', s', hrun, hs', hm, hst, hctx⟩ :=
      ih (collaborative_generation env k sec info 1).2
        (Py.insert store sid
          { s with context := (Py.update s.context
              [(sec ++ "_generation_process",
                CtxVal.vTrace (collaborative_generation env k sec info 1).1.iterations)]) })
        (Py.insert acc sec (collaborative_generation env k sec info 1).1.final_content)
        _ h1
    refine ⟨pc, store', k', s', ?_, hs', by simpa using hm, by simpa using hst, ?_⟩
    · simp only [generate_sections, hupd]
      exact hrun
    · intro key hk
      rw [hctx key hk]
      simp only [Py.update_cons, Py.update_nil]
      exact Py.get?_insert_other _ _ _ _ (key_ne_gen_process sec key hk)

theorem start_paper_generation_spec (env : ChatEnv) (k : Nat) (store : Store)
    (sid : String) (info : List (String × PyVal)) (s : Session)
    (h : get_session store sid = some s) :
    ∃ pc store' k' s',
      start_paper_generation env k store sid info =
        .ok ({ session_id := some sid, stage := some PaperGenerationStage.COMPLETED,
               message := some completion_message, paper_content := some pc,
               status := some "completed" }, store', k')
      ∧ get_session store' sid = some s'
      ∧ s'.status = "completed"
      ∧ Py.get? s'.context "current_stage" =
          some (CtxVal.vStage PaperGenerationStage.COMPLETED)
      ∧ Py.get? s'.context "collected_info" = Py.get? s.context "collected_info"
      ∧ Py.get? s'.context "paper_content" = some (CtxVal.vPaper pc) := by
  set S1 : Session := { s with context := (Py.update s.context
    [("current_stage", CtxVal.vStage PaperGenerationStage.GENERATING)]) } with hS1
  set T1 : Store := Py.insert store sid S1 with hT1
  have hu1 : update_context store sid
      [("current_stage", CtxVal.vStage PaperGenerationStage.GENERATING)] = .ok T1 := by
    simp [update_context, h, hT1, hS1]
  have h1 : get_session T1 sid = some S1 := by
    rw [hT1]; exact Py.get?_insert_self _ _ _
  set S2 : Session := { S1 with
    messages := S1.messages ++ [Msg.mk "assistant" generation_notification] } with hS2
  set T2 : Store := Py.insert T1 sid S2 with hT2
  have hu2 : add_message T1 sid "assistant" generation_notification = .ok T2 := by
    simp [add_message, h1, hT2, hS2]
  have h2 : get_session T2 sid = some S2 := by
    rw [hT2]; exact Py.get?_insert_self _ _ _
  obtain ⟨pc, store3, k3, s3, hrun, hs3, hm3, hst3, hctx3⟩ :=
    generate_sections_spec env sid info paper_sections k T2 [] S2 h2
  set S4 : Session := { s3 with context := (Py.update s3.context
    [("paper_content", CtxVal.vPaper pc),
     ("current_stage", CtxVal.vStage PaperGenerationStage.COMPLETED)]) } with hS4
  set T4 : Store := Py.insert store3 sid S4 with hT4
  have hu3 : update_context store3 sid
      [("paper_content", CtxVal.vPaper pc),
       ("current_stage", CtxVal.vStage PaperGenerationStage.COMPLETED)] = .ok T4 := by
    simp [update_context, hs3, hT4, hS4]
  have h4 : get_session T4 sid = some S4 := by
    rw [hT4]; exact Py.get?_insert_self _ _ _
  set S5 : Session := { S4 with status := "completed" } with hS5
  set T5 : Store := Py.insert T4 sid S5 with hT5
  have hu4 : update_session_status T4 sid "completed" = .ok T5 := by
    simp [update_session_status, h4, hT5, hS5]
  have h5 : get_session T5 sid = some S5 := by
    rw [hT5]; exact Py.get?_insert_self _ _ _
  set S6 : Session := { S5 with
    messages := S5.messages ++ [Msg.mk "assistant" completion_message] } with hS6
  set T6 : Store := Py.insert T5 sid S6 with hT6
  have hu5 : add_message T5 sid "assistant" completion_message = .ok T6 := by
    simp [add_message, h5, hT6, hS6]
  have h6 : get_session T6 sid = some S6 := by
    rw [hT6]; exact Py.get?_insert_self _ _ _
  have hctx6 : S6.context = Py.insert
      (Py.insert s3.context "paper_content" (CtxVal.vPaper pc))
      "current_stage" (CtxVal.vStage PaperGenerationStage.COMPLETED) := by
    simp [hS6, hS5, hS4, Py.update_cons, Py.update_nil]
  refine ⟨pc, T6, k3, S6, ?_, h6, ?_, ?_, ?_, ?_⟩
  · simp only [start_paper_generation, hu1, hu2, hrun, hu3, hu4, hu5]
  · simp [hS6, hS5]
  · rw [hctx6, Py.get?_insert_self]
  · rw [hctx6,
      Py.get?_insert_other _ _ _ _ (by decide),
      Py.get?_insert_other _ _ _ _ (by decide),
      hctx3 "collected_info" (by decide)]
    have hc2 : S2.context = Py.insert s.context "current_stage"
        (CtxVal.vStage PaperGenerationStage.GENERATING) := by
      simp [hS2, hS1, Py.update_cons, Py.update_nil]
    rw [hc2, Py.get?_insert_other _ _ _ _ (by decide)]
  · rw [hctx6, Py.get?_insert_other _ _ _ _ (by decide), Py.get?_insert_self]

theorem process_user_input_eq (cfg : PaperConfig) (env : ChatEnv) (k : Nat)
    (store : Store) (sid input : String) (s : Session)
    (h : get_session store sid = some s) :
    process_user_input cfg env k store sid input =
      (if (s.messages.length + 1) / 2 < cfg.min_rounds then
        continue_information_collection env
          (extract_information env k input (ctx_current_stage s.context)).2
          (Py.insert (Py.insert store sid
            { s with messages := s.messages ++ [Msg.mk "user" input] }) sid
            { s with
              messages := s.messages ++ [Msg.mk "user" input]
              context := (Py.update s.context
                [("collected_info", CtxVal.vInfo (Py.update (ctx_collected_info s.context)
                  (extract_information env k input (ctx_current_stage s.context)).1))]) })
          sid (ctx_current_stage s.context)
          (Py.update (ctx_collected_info s.context)
            (extract_information env k input (ctx_current_stage s.context)).1)
          ((s.messages.length + 1) / 2)
      else if (check_information_completeness
            (Py.update (ctx_collected_info s.context)
              (extract_information env k input (ctx_current_stage s.context)).1)).is_complete = true
          ∨ cfg.max_rounds ≤ (s.messages.length + 1) / 2 then
        start_paper_generation env
          (extract_information env k input (ctx_current_stage s.context)).2
          (Py.insert (Py.insert store sid
            { s with messages := s.messages ++ [Msg.mk "user" input] }) sid
            { s with
              messages := s.messages ++ [Msg.mk "user" input]
              context := (Py.update s.context
                [("collected_info", CtxVal.vInfo (Py.update (ctx_collected_info s.context)
                  (extract_information env k input (ctx_current_stage s.context)).1))]) })
          sid
          (Py.update (ctx_collected_info s.context)
            (extract_information env k input (ctx_current_stage s.context)).1)
      else
        match collect_missing_information
            (Py.insert (Py.insert store sid
              { s with messages := s.messages ++ [Msg.mk "user" input] }) sid
              { s with
                messages := s.messages ++ [Msg.mk "user" input]
                context := (Py.update s.context
                  [("collected_info", CtxVal.vInfo (Py.update (ctx_collected_info s.context)
                    (extract_information env k input (ctx_current_stage s.context)).1))]) })
            sid
            (Py.update (ctx_collected_info s.context)
              (extract_information env k input (ctx_current_stage s.context)).1)
            (check_information_completeness
              (Py.update (ctx_collected_info s.context)
                (extract_information env k input (ctx_current_stage s.context)).1)).missing_info with
        | .error e => .error e
        | .ok out => .ok (out.1, out.2,
            (extract_information env k input (ctx_current_stage s.context)).2)) := by
  have h' : Py.get? store sid = some s := h
  have hadd : add_message store sid "user" input =
      .ok (Py.insert store sid { s with messages := s.messages ++ [Msg.mk "user" input] }) := by
    simp [add_message, h]
  have hctx1 : get_context (Py.insert store sid
      { s with messages := s.messages ++ [Msg.mk "user" input] }) sid = s.context := by
    simp [get_context, get_session, Py.get?_insert_self]
  have hupd : update_context (Py.insert store sid
      { s with messages := s.messages ++ [Msg.mk "user" input] }) sid
      [("collected_info", CtxVal.vInfo (Py.update (ctx_collected_info s.context)
        (extract_information env k input (ctx_current_stage s.context)).1))] =
      .ok (Py.insert (Py.insert store sid
        { s with messages := s.messages ++ [Msg.mk "user" input] }) sid
        { s with
          messages := s.messages ++ [Msg.mk "user" input]
          context := (Py.update s.context
            [("collected_info", CtxVal.vInfo (Py.update (ctx_collected_info s.context)
              (extract_information env k input (ctx_current_stage s.context)).1))]) }) := by
    simp [update_context, get_session, Py.get?_insert_self]
  simp only [process_user_input, get_session, h', hadd, hctx1, hupd,
    Py.get?_insert_self, List.length_append, List.length_singleton]

/-! ### C1: hard round ceiling forces generation -/

/-- C1: for every session state — hence every `collected_info`, complete or
not — a user turn whose round count `⌊message_count/2⌋` (after the user
message is appended) reaches `max_rounds = 15` under the default
configuration takes the generating branch: paper generation is invoked
synchronously and the turn returns the completed-paper response, with the
session left in stage `completed`. -/
theorem C1_round_ceiling (env : ChatEnv) (k : Nat) (store : Store)
    (sid input : String) (s : Session)
    (h : get_session store sid = some s)
    (hr : 15 ≤ (s.messages.length + 1) / 2) :
    ∃ pc store' k' s',
      process_user_input default_paper_config env k store sid input =
        .ok ({ session_id := some sid, stage := some PaperGenerationStage.COMPLETED,
               message := some completion_message, paper_content := some pc,
               status := some "completed" }, store', k')
      ∧ get_session store' sid = some s'
      ∧ s'.status = "completed"
      ∧ Py.get? s'.context "current_stage" =
          some (CtxVal.vStage PaperGenerationStage.COMPLETED) := by
  rw [process_user_input_eq default_paper_config env k store sid input s h]
  rw [if_neg (by simp only [default_paper_config]; omega)]
  rw [if_pos (Or.inr (by simp only [default_paper_config]; omega))]
  obtain ⟨pc, store', k', s', hrun, hs', hst, hstage, _, _⟩ :=
    start_paper_generation_spec env
      (extract_information env k input (ctx_current_stage s.context)).2
      (Py.insert (Py.insert store sid
        { s with messages := s.messages ++ [Msg.mk "user" input] }) sid
        { s with
          messages := s.messages ++ [Msg.mk "user" input]
          context := (Py.update s.context
            [("collected_info", CtxVal.vInfo (Py.update (ctx_collected_info s.context)
              (extract_information env k input (ctx_current_stage s.context)).1))]) })
      sid
      (Py.update (ctx_collected_info s.context)
        (extract_information env k input (ctx_current_stage s.context)).1)
      { s with
        messages := s.messages ++ [Msg.mk "user" input]
        context := (Py.update s.context
          [("collected_info", CtxVal.vInfo (Py.update (ctx_collected_info s.context)
            (extract_information env k input (ctx_current_stage s.context)).1))]) }
      (Py.get?_insert_self _ _ _)
  exact ⟨pc, store', k', s', hrun, hs', hst, hstage⟩

/-- C1 witness: round 15 (29 stored messages plus the new user message) with
zero required fields collected still starts generation. -/
theorem C1_round_ceiling_witness :
    ∃ pc store' k' s',
      process_user_input default_paper_config c1_env 0 c1_store "s1" "这是第十五轮输入" =
        .ok ({ session_id := some "s1", stage := some PaperGenerationStage.COMPLETED,
               message := some completion_message, paper_content := some pc,
               status := some "completed" }, store', k')
      ∧ get_session store' "s1" = some s'
      ∧ s'.status = "completed"
      ∧ Py.get? s'.context "current_stage" =
          some (CtxVal.vStage PaperGenerationStage.COMPLETED) :=
  C1_round_ceiling c1_env 0 c1_store "s1" "这是第十五轮输入"
    { session_id := "s1", user_id := "u1", title := "新论文项目"
      messages := List.replicate 29 (Msg.mk "user" "历史消息")
      context := [], status := "active" }
    (by decide) (by decide)

/-! ### C6: collection-phase turns -/

/-- C6: on a user turn with `round = ⌊message_count/2⌋ < min_rounds = 5`
(default configuration, count taken over the transcript including the new
user message), the stage controller sets `current_stage` to
`stage_flow[min(round, len(stage_flow)-1)]`, appends the collector role's
reply as an assistant message, and returns that stage, the reply, `round + 1`
and status `"collecting"`. -/
theorem C6_collection_phase (env : ChatEnv) (k : Nat) (store : Store)
    (sid input : String) (s : Session)
    (h : get_session store sid = some s)
    (hlt : (s.messages.length + 1) / 2 < 5) :
    ∃ store' k' s' m,
      process_user_input default_paper_config env k store sid input =
        .ok ({ session_id := some sid,
               stage := some (stage_flow.getD
                 (min ((s.messages.length + 1) / 2) (stage_flow.length - 1)) "")
               message := some m
               round := some ((s.messages.length + 1) / 2 + 1)
               status := some "collecting" }, store', k')
      ∧ get_session store' sid = some s'
      ∧ s'.messages = s.messages ++ [Msg.mk "user" input, Msg.mk "assistant" m]
      ∧ Py.get? s'.context "current_stage" =
          some (CtxVal.vStage (stage_flow.getD
            (min ((s.messages.length + 1) / 2) (stage_flow.length - 1)) "")) := by
  rw [process_user_input_eq default_paper_config env k store sid input s h]
  rw [if_pos (by simp only [default_paper_config]; omega)]
  simp only [continue_information_collection]
  rw [if_neg (show ¬ ((s.messages.length + 1) / 2 ≥ stage_flow.length) by
    simp only [stage_flow]; simp; omega)]
  set CI1 := Py.update (ctx_collected_info s.context)
    (extract_information env k input (ctx_current_stage s.context)).1 with hCI1
  set EX2 := (extract_information env k input (ctx_current_stage s.context)).2 with hEX2
  set U1 : Session := { s with messages := s.messages ++ [Msg.mk "user" input] } with hU1
  set U2 : Session := { s with
    messages := s.messages ++ [Msg.mk "user" input]
    context := (Py.update s.context [("collected_info", CtxVal.vInfo CI1)]) } with hU2
  set T2 : Store := Py.insert (Py.insert store sid U1) sid U2 with hT2
  set NS := stage_flow.getD (min ((s.messages.length + 1) / 2) (stage_flow.length - 1)) ""
    with hNS
  set U3 : Session := { s with
    messages := s.messages ++ [Msg.mk "user" input]
    context := (Py.update (Py.update s.context [("collected_info", CtxVal.vInfo CI1)])
      [("current_stage", CtxVal.vStage NS)]) } with hU3
  set T3 : Store := Py.insert T2 sid U3 with hT3
  have huc : update_context T2 sid [("current_stage", CtxVal.vStage NS)] = .ok T3 := by
    simp [update_context, get_session, hT2, hT3, hU2, hU3, Py.get?_insert_self]
  simp only [huc]
  set M := (collect_information env EX2 NS CI1 (get_messages_for_api T3 sid (some 6))).1
    with hM
  set U4 : Session := { s with
    messages := s.messages ++ [Msg.mk "user" input] ++ [Msg.mk "assistant" M]
    context := (Py.update (Py.update s.context [("collected_info", CtxVal.vInfo CI1)])
      [("current_stage", CtxVal.vStage NS)]) } with hU4
  have ham : add_message T3 sid "assistant" M = .ok (Py.insert T3 sid U4) := by
    simp [add_message, get_session, hT3, hU3, hU4, Py.get?_insert_self]
  simp only [ham]
  refine ⟨Py.insert T3 sid U4,
    (collect_information env EX2 NS CI1 (get_messages_for_api T3 sid (some 6))).2,
    U4, M, rfl, Py.get?_insert_self _ _ _, ?_, ?_⟩
  · simp [hU4]
  · simp [hU4, Py.update_cons, Py.update_nil, Py.get?_insert_self]


/-- C6 witness: a turn at round 2 of a five-message transcript lands on
`stage_flow[2] = methodology` with status `collecting`. -/
theorem C6_collection_phase_witness :
    ∃ store' k' s' m,
      process_user_input default_paper_config c6_env 0 c6_store "s6" "我的研究背景如下" =
        .ok ({ session_id := some "s6",
               stage := some (stage_flow.getD
                 (min (((List.replicate 3 (Msg.mk "user" "历史消息")).length + 1) / 2)
                   (stage_flow.length - 1)) "")
               message := some m
               round := some (((List.replicate 3 (Msg.mk "user" "历史消息")).length + 1) / 2 + 1)
               status := some "collecting" }, store', k')
      ∧ get_session store' "s6" = some s'
      ∧ s'.messages = List.replicate 3 (Msg.mk "user" "历史消息") ++
          [Msg.mk "user" "我的研究背景如下", Msg.mk "assistant" m]
      ∧ Py.get? s'.context "current_stage" =
          some (CtxVal.vStage (stage_flow.getD
            (min (((List.replicate 3 (Msg.mk "user" "历史消息")).length + 1) / 2)
              (stage_flow.length - 1)) "")) :=
  C6_collection_phase c6_env 0 c6_store "s6" "我的研究背景如下"
    { session_id := "s6", user_id := "u6", title := "新论文项目"
      messages := List.replicate 3 (Msg.mk "user" "历史消息")
      context := [], status := "active" }
    (by decide) (by decide)

/-! ### C7: monotonicity of collected_info -/

theorem continue_info_collection_preserves (env : ChatEnv) (k : Nat) (store : Store)
    (sid stage : String) (info : List (String × PyVal)) (r : Nat) (s : Session)
    (h : get_session store sid = some s) :
    ∃ resp store' k',
      continue_information_collection env k store sid stage info r = .ok (resp, store', k')
      ∧ ∃ s', get_session store' sid = some s'
        ∧ Py.get? s'.context "collected_info" = Py.get? s.context "collected_info" := by
  simp only [continue_information_collection]
  set NS := stage_flow.getD
    (min (if r ≥ stage_flow.length then stage_flow.length - 1 else r)
      (stage_flow.length - 1)) "" with hNS
  set S3 : Session := { s with
    context := (Py.update s.context [("current_stage", CtxVal.vStage NS)]) } with hS3
  set T3 : Store := Py.insert store sid S3 with hT3
  have huc : update_context store sid [("current_stage", CtxVal.vStage NS)] = .ok T3 := by
    simp [update_context, h, hT3, hS3]
  simp only [huc]
  set M := (collect_information env k NS info (get_messages_for_api T3 sid (some 6))).1
    with hM
  set S4 : Session := { s with
    messages := s.messages ++ [Msg.mk "assistant" M]
    context := (Py.update s.context [("current_stage", CtxVal.vStage NS)]) } with hS4
  have ham : add_message T3 sid "assistant" M = .ok (Py.insert T3 sid S4) := by
    simp [add_message, get_session, hT3, hS3, hS4, Py.get?_insert_self]
  simp only [ham]
  refine ⟨_, _, _, rfl, S4, Py.get?_insert_self _ _ _, ?_⟩
  simp only [hS4, Py.update_cons, Py.update_nil]
  exact Py.get?_insert_other _ _ _ _ (by decide)

/-- C7 counterexample: the session starts with the required field `研究主题`
present and truthy (not reported missing); one user turn whose extraction
yields `研究主题 ↦ ""` overwrites it with a falsy value, and the completeness
check afterwards reports `研究主题` missing again — refuting "once a required
field holds a non-empty value, no subsequent turn can make the completeness
check report that field as missing". -/
theorem C7_counterexample :
    Py.get? (ctx_collected_info (get_context c7_store "s7")) "研究主题" =
      some (PyVal.vStr "AI与教育研究")
    ∧ (PyVal.vStr "AI与教育研究").truthy = true
    ∧ "研究主题" ∉ (check_information_completeness
        (ctx_collected_info (get_context c7_store "s7"))).missing_info
    ∧ c7_run_ok = true
    ∧ "研究主题" ∈ (check_information_completeness
        (ctx_collected_info (get_context c7_store_after "s7"))).missing_info := by
  decide

/-- C7 amended: the merge `collected_info.update(extracted)` never deletes
keys and `collected_info` is never cleared, so every key present before a
turn is still present (with some value) afterwards, in every branch of the
stage controller. However a turn may OVERWRITE a required field with a falsy
value — extraction output wins on key collision — after which the
completeness check reports that field missing again (see the counterexample);
what is monotone is key presence, not non-emptiness. -/
theorem C7_collected_info_keys_monotone (cfg : PaperConfig) (env : ChatEnv)
    (k : Nat) (store : Store) (sid input f : String) (s : Session) (v : PyVal)
    (h : get_session store sid = some s)
    (hf : Py.get? (ctx_collected_info s.context) f = some v) :
    ∃ resp store' k',
      process_user_input cfg env k store sid input = .ok (resp, store', k')
      ∧ ∃ w, Py.get? (ctx_collected_info (get_context store' sid)) f = some w := by
  rw [process_user_input_eq cfg env k store sid input s h]
  have hsome : (Py.get? (Py.update (ctx_collected_info s.context)
      (extract_information env k input (ctx_current_stage s.context)).1) f).isSome :=
    Py.get?_update_isSome _ _ _ (by simp [hf])
  obtain ⟨w, hw⟩ := Option.isSome_iff_exists.mp hsome
  split_ifs with h1 h2
  · obtain ⟨resp, store', k', hrun, s', hs', hpres⟩ :=
      continue_info_collection_preserves env
        (extract_information env k input (ctx_current_stage s.context)).2
        (Py.insert (Py.insert store sid
          { s with messages := s.messages ++ [Msg.mk "user" input] }) sid
          { s with
            messages := s.messages ++ [Msg.mk "user" input]
            context := (Py.update s.context
              [("collected_info", CtxVal.vInfo (Py.update (ctx_collected_info s.context)
                (extract_information env k input (ctx_current_stage s.context)).1))]) })
        sid (ctx_current_stage s.context)
        (Py.update (ctx_collected_info s.context)
          (extract_information env k input (ctx_current_stage s.context)).1)
        ((s.messages.length + 1) / 2) _ (Py.get?_insert_self _ _ _)
    refine ⟨resp, store', k', hrun, w, ?_⟩
    have hci : Py.get? s'.context "collected_info" =
        some (CtxVal.vInfo (Py.update (ctx_collected_info s.context)
          (extract_information env k input (ctx_current_stage s.context)).1)) := by
      rw [hpres]
      simp only [Py.update_cons, Py.update_nil]
      exact Py.get?_insert_self _ _ _
    have hs2 : Py.get? store' sid = some s' := hs'
    simp only [get_context, get_session, hs2, ctx_collected_info, hci]
    exact hw
  · obtain ⟨pc, store', k', s', hrun, hs', _, _, hci, _⟩ :=
      start_paper_generation_spec env
        (extract_information env k input (ctx_current_stage s.context)).2
        (Py.insert (Py.insert store sid
          { s with messages := s.messages ++ [Msg.mk "user" input] }) sid
          { s with
            messages := s.messages ++ [Msg.mk "user" input]
            context := (Py.update s.context
              [("collected_info", CtxVal.vInfo (Py.update (ctx_collected_info s.context)
                (extract_information env k input (ctx_current_stage s.context)).1))]) })
        sid
        (Py.update (ctx_collected_info s.context)
          (extract_information env k input (ctx_current_stage s.context)).1)
        { s with
          messages := s.messages ++ [Msg.mk "user" input]
          context := (Py.update s.context
            [("collected_info", CtxVal.vInfo (Py.update (ctx_collected_info s.context)
              (extract_information env k input (ctx_current_stage s.context)).1))]) }
        (Py.get?_insert_self _ _ _)
    refine ⟨_, store', k', hrun, w, ?_⟩
    have hci2 : Py.get? s'.context "collected_info" =
        some (CtxVal.vInfo (Py.update (ctx_collected_info s.context)
          (extract_information env k input (ctx_current_stage s.context)).1)) := by
      rw [hci]
      simp only [Py.update_cons, Py.update_nil]
      exact Py.get?_insert_self _ _ _
    have hs2 : Py.get? store' sid = some s' := hs'
    simp only [get_context, get_session, hs2, ctx_collected_info, hci2]
    exact hw
  · simp only [collect_missing_information]
    have ham : add_message
        (Py.insert (Py.insert store sid
          { s with messages := s.messages ++ [Msg.mk "user" input] }) sid
          { s with
            messages := s.messages ++ [Msg.mk "user" input]
            context := (Py.update s.context
              [("collected_info", CtxVal.vInfo (Py.update (ctx_collected_info s.context)
                (extract_information env k input (ctx_current_stage s.context)).1))]) })
        sid "assistant"
        (missing_information_prompt (String.intercalate "、"
          (check_information_completeness
            (Py.update (ctx_collected_info s.context)
              (extract_information env k input (ctx_current_stage s.context)).1)).missing_info)) =
        .ok (Py.insert (Py.insert (Py.insert store sid
          { s with messages := s.messages ++ [Msg.mk "user" input] }) sid
          { s with
            messages := s.messages ++ [Msg.mk "user" input]
            context := (Py.update s.context
              [("collected_info", CtxVal.vInfo (Py.update (ctx_collected_info s.context)
                (extract_information env k input (ctx_current_stage s.context)).1))]) }) sid
          { s with
            messages := (s.messages ++ [Msg.mk "user" input]) ++
              [Msg.mk "assistant" (missing_information_prompt (String.intercalate "、"
                (check_information_completeness
                  (Py.update (ctx_collected_info s.context)
                    (extract_information env k input (ctx_current_stage s.context)).1)).missing_info))]
            context := (Py.update s.context
              [("collected_info", CtxVal.vInfo (Py.update (ctx_collected_info s.context)
                (extract_information env k input (ctx_current_stage s.context)).1))]) }) := by
      simp [add_message, get_session, Py.get?_insert_self]
    simp only [ham]
    refine ⟨_, _, _, rfl, w, ?_⟩
    simp only [get_context, get_session, Py.get?_insert_self, ctx_collected_info,
      Py.update_cons, Py.update_nil]
    exact hw

/-- C7 amended witness: a field present before a fallback-extraction turn is
still present afterwards. -/
theorem C7_collected_info_keys_monotone_witness :
    ∃ resp store' k',
      process_user_input default_paper_config c7w_env 0 c7w_store "s7w" "补充一点" =
        .ok (resp, store', k')
      ∧ ∃ w, Py.get? (ctx_collected_info (get_context store' "s7w")) "研究主题" = some w :=
  C7_collected_info_keys_monotone default_paper_config c7w_env 0 c7w_store "s7w"
    "补充一点" "研究主题"
    { session_id := "s7w", user_id := "u", title := "新论文项目"
      messages := List.replicate 3 (Msg.mk "user" "历史消息")
      context := [("collected_info", CtxVal.vInfo [("研究主题", PyVal.vStr "AI")])]
      status := "active" }
    (PyVal.vStr "AI") (by decide) (by decide)

/-! ### C9: regeneration of a single section -/

/-- C9: the regeneration entry point runs one `collaborative_generation`
(`iterations = 1`) on the already-collected info and merges its
`final_content` into `paper_content` at exactly the named section: the entry
for that section is replaced and every other section's text is unchanged. It
calls the collaboration engine and the session store directly — the embedding
shows it never invokes `process_user_input` (the Stage Controller). -/
theorem C9_regenerate_section_frame (env : ChatEnv) (k : Nat) (store : Store)
    (sid sec reqs : String) (s : Session)
    (h : get_session store sid = some s) :
    ∃ resp store' k',
      regenerate_section env k store sid sec reqs = .ok (resp, store', k')
      ∧ resp.status = some "success"
      ∧ resp.sec = some sec
      ∧ resp.content = some
          (collaborative_generation env k sec (ctx_collected_info s.context) 1).1.final_content
      ∧ Py.get? (ctx_paper_content (get_context store' sid)) sec = some
          (collaborative_generation env k sec (ctx_collected_info s.context) 1).1.final_content
      ∧ ∀ other, other ≠ sec →
          Py.get? (ctx_paper_content (get_context store' sid)) other =
            Py.get? (ctx_paper_content s.context) other := by
  have h' : Py.get? store sid = some s := h
  have hctx : get_context store sid = s.context := by
    simp [get_context, get_session, h']
  set PC1 := Py.insert (ctx_paper_content s.context) sec
    (collaborative_generation env k sec (ctx_collected_info s.context) 1).1.final_content
    with hPC1
  set S9 : Session := { s with
    context := (Py.update s.context [("paper_content", CtxVal.vPaper PC1)]) } with hS9
  have hupd : update_context store sid [("paper_content", CtxVal.vPaper PC1)] =
      .ok (Py.insert store sid S9) := by
    simp [update_context, h, hS9]
  have hget : ctx_paper_content (get_context (Py.insert store sid S9) sid) = PC1 := by
    have hs2 : Py.get? (Py.insert store sid S9) sid = some S9 := Py.get?_insert_self _ _ _
    simp only [get_context, get_session, hs2, hS9, Py.update_cons, Py.update_nil]
    simp only [ctx_paper_content, Py.get?_insert_self]
  refine ⟨{ session_id := some sid, sec := some sec
            content := some
              (collaborative_generation env k sec (ctx_collected_info s.context) 1).1.final_content
            status := some "success" },
    Py.insert store sid S9,
    (collaborative_generation env k sec (ctx_collected_info s.context) 1).2,
    ?_, rfl, rfl, rfl, ?_, ?_⟩
  · simp only [regenerate_section, hctx, hupd]
  · rw [hget, hPC1]
    exact Py.get?_insert_self _ _ _
  · intro other hother
    rw [hget, hPC1]
    exact Py.get?_insert_other _ _ _ _ (fun he => hother he.symm)

/-- C9 witness: regenerating `abstract` replaces it and leaves `conclusion`
untouched. -/
theorem C9_regenerate_section_frame_witness :
    ∃ resp store' k',
      regenerate_section c9_env 0 c9_store "s9" "abstract" "" = .ok (resp, store', k')
      ∧ resp.status = some "success"
      ∧ resp.sec = some "abstract"
      ∧ resp.content = some
          (collaborative_generation c9_env 0 "abstract"
            (ctx_collected_info (get_context c9_store "s9")) 1).1.final_content
      ∧ Py.get? (ctx_paper_content (get_context store' "s9")) "abstract" = some
          (collaborative_generation c9_env 0 "abstract"
            (ctx_collected_info (get_context c9_store "s9")) 1).1.final_content
      ∧ ∀ other, other ≠ "abstract" →
          Py.get? (ctx_paper_content (get_context store' "s9")) other =
            Py.get? (ctx_paper_content (get_context c9_store "s9")) other := by
  have base := C9_regenerate_section_frame c9_env 0 c9_store "s9" "abstract" ""
    { session_id := "s9", user_id := "u9", title := "新论文项目"
      messages := []
      context :=
        [("collected_info", CtxVal.vInfo [("研究主题", PyVal.vStr "AI")]),
         ("paper_content",
          CtxVal.vPaper [("abstract", "旧摘要"), ("conclusion", "旧结论")])]
      status := "completed" }
    (by decide)
  exact base
